import Mathlib

/-!
Shallow embedding of the fake ELB server (`elb/elbtest/server.go`) and the fake
Route53 server (`route53test`) of the pivotal-cloudops/cloudops-goamz repository.

Requests are modelled as decoded forms (ordered key/value lists, as produced by
`req.ParseForm`); handlers are state-transforming functions on an explicit
`ServerState`.  A Go `panic` (nil-pointer dereference, out-of-range slice
expression, `strconv` panic) is modelled as the distinguished outcome `crash`.
The index-probing loops of the source are given fuel `form.length + 1`; a fuel
exhaustion (which cannot occur for a finite form, since consecutive successful
probes consume distinct keys) is the distinguished outcome `fuelOut`, and all
general theorems condition on the probe loops returning a value.
-/

namespace ElbTest

/-- A decoded form: ordered key/value pairs.  `formGet` returns the first value
bound to a key, or the empty string when the key is absent, mirroring Go's
`req.FormValue` / `url.Values.Get`. -/
abbrev Form := List (String × String)

/-- Go `req.FormValue key`: first value for the key, `""` when absent. -/
def formGet (form : Form) (k : String) : String :=
  match form.find? (fun p => p.1 = k) with
  | some p => p.2
  | none => ""

/-- Numeric value of a decimal digit character. -/
def digitVal (c : Char) : Nat := c.toNat - '0'.toNat

/-- Accumulating decimal parser: fails on any non-digit character. -/
def decDigitsAux : List Char → Nat → Option Nat
  | [], acc => some acc
  | c :: rest, acc =>
    if c.isDigit then decDigitsAux rest (acc * 10 + digitVal c) else none

/-- Parse a non-empty all-digit string to a natural number. -/
def parseNatDigits : List Char → Option Nat
  | [] => none
  | l => decDigitsAux l 0

/-- Parse an optional sign followed by decimal digits (Go `strconv` syntax for
base 10); `none` on a syntax error. -/
def parseIntRaw (s : String) : Option Int :=
  match s.toList with
  | '+' :: rest => (parseNatDigits rest).map (fun n => (n : Int))
  | '-' :: rest => (parseNatDigits rest).map (fun n => -(n : Int))
  | l => (parseNatDigits l).map (fun n => (n : Int))

/-- Largest int64 value. -/
def maxI64 : Int := 2 ^ 63 - 1

/-- Smallest int64 value. -/
def minI64 : Int := -(2 ^ 63)

/-- Go `strconv.Atoi` with the error ignored (`v, _ := strconv.Atoi(s)`): the
result is 0 on a syntax error and the clamped extreme value on a range error. -/
def atoi (s : String) : Int :=
  match parseIntRaw s with
  | none => 0
  | some v => if v > maxI64 then maxI64 else if v < minI64 then minI64 else v

/-- Go `strconv.ParseInt(s, 10, 64)`: `none` when the call would return a
non-nil error (syntax or range), in which case the caller panics. -/
def parseInt64 (s : String) : Option Int :=
  match parseIntRaw s with
  | none => none
  | some v => if v > maxI64 then none else if v < minI64 then none else some v

/-- Go `strings.ToUpper`, restricted to ASCII (all inputs in this development
are ASCII); implemented as a structural map over the character list. -/
def toUpperStr (s : String) : String := ⟨s.data.map Char.toUpper⟩

/-- The structured error type `elb.Error` (status code, code string, message). -/
structure ElbError where
  statusCode : Nat
  code : String
  message : String
deriving DecidableEq

/-- The `elb.Listener` record, with the fields the simulator uses. -/
structure Listener where
  protocol : String
  instanceProtocol : String
  sslCertificateId : String
  loadBalancerPort : Int
  instancePort : Int
deriving DecidableEq

/-- The `elb.HealthCheck` record, field order as in `makeHealthCheck`. -/
structure HealthCheck where
  healthyThreshold : Int
  interval : Int
  target : String
  timeout : Int
  unhealthyThreshold : Int
deriving DecidableEq

/-- The `elb.Instance` record. -/
structure Instance where
  instanceId : String
deriving DecidableEq

/-- The `elb.InstanceState` record. -/
structure InstanceState where
  description : String
  instanceId : String
  state : String
  reasonCode : String
deriving DecidableEq

/-- The `elb.Tag` record. -/
structure Tag where
  key : String
  value : String
deriving DecidableEq

/-- The `elb.LoadBalancer` record; defaults are the Go zero values. -/
structure LoadBalancer where
  availabilityZones : List String := []
  subnets : List String := []
  securityGroups : List String := []
  healthCheck : HealthCheck := ⟨0, 0, "", 0, 0⟩
  listeners : List Listener := []
  instances : List Instance := []
  scheme : String := ""
  loadBalancerName : String := ""
  dnsName : String := ""
deriving DecidableEq

/-- The mutable state of the fake ELB server: the load-balancer map `lbs`, the
known instances, the per-load-balancer instance health states, and the tag
multimap.  Go maps are modelled as association lists without duplicate keys. -/
structure ServerState where
  lbs : List (String × LoadBalancer) := []
  instances : List String := []
  instanceStates : List (String × List InstanceState) := []
  lbTags : List (String × List Tag) := []
deriving DecidableEq

/-- The state of a freshly constructed server (`NewServer`): all maps empty. -/
def initServer : ServerState := {}

/-- Association-list lookup (Go map read: `m[k]`). -/
def alGet {α : Type} (m : List (String × α)) (k : String) : Option α :=
  match m.find? (fun p => p.1 = k) with
  | some p => some p.2
  | none => none

/-- Association-list insert/replace (Go map write: `m[k] = v`). -/
def alSet {α : Type} : List (String × α) → String → α → List (String × α)
  | [], k, v => [(k, v)]
  | (k', v') :: rest, k, v =>
    if k' = k then (k, v) :: rest else (k', v') :: alSet rest k v

/-- Association-list removal (Go `delete(m, k)`). -/
def alRemove {α : Type} : List (String × α) → String → List (String × α)
  | [], _ => []
  | (k', v') :: rest, k =>
    if k' = k then alRemove rest k else (k', v') :: alRemove rest k

/-- Read `srv.instanceStates[lb]`; a missing key reads as the empty (nil)
slice, as in Go. -/
def statesGet (s : ServerState) (n : String) : List InstanceState :=
  (alGet s.instanceStates n).getD []

/-- Write `srv.instanceStates[lb] = l`. -/
def statesSet (s : ServerState) (n : String) (l : List InstanceState) : ServerState :=
  { s with instanceStates := alSet s.instanceStates n l }

/-- Read `srv.lbTags[lb]`; a missing key reads as the empty slice. -/
def tagsGet (s : ServerState) (n : String) : List Tag :=
  (alGet s.lbTags n).getD []

/-- Write `srv.lbs[name] = lb` (also the net effect of a mutation through the
pointer stored in the map). -/
def setLb (s : ServerState) (n : String) (lb : LoadBalancer) : ServerState :=
  { s with lbs := alSet s.lbs n lb }

/-- Outcome of one handler call: a success payload, a structured `elb.Error`,
a Go runtime panic (`crash`), or model fuel exhaustion (`fuelOut`, unreachable
for finite forms). -/
inductive Outcome (α : Type) where
  | ok : α → Outcome α
  | err : ElbError → Outcome α
  | crash : Outcome α
  | fuelOut : Outcome α
deriving DecidableEq

/-- The index-probing loop used throughout the server: probe `key i`,
`key (i+1)`, … until a probe returns the empty string; collect the non-empty
values in order.  The second component of the result is the value of the loop
variable after the loop — the probe that terminated it, hence always `""`
(lemma `collectLoop_last`).  `none` when the fuel runs out. -/
def collectLoop (get1 : Nat → String) : Nat → Nat → Option (List String × String)
  | 0, _ => none
  | fuel + 1, i =>
    let v := get1 i
    if v = "" then some ([], v)
    else (collectLoop get1 fuel (i + 1)).map (fun r => (v :: r.1, r.2))

/-- Source `getParameters`: collect `pre ++ "1"`, `pre ++ "2"`, … until the first
missing index. -/
def getParameters (form : Form) (key : Nat → String) : Option (List String) :=
  (collectLoop (fun i => formGet form (key i)) (form.length + 1) 1).map (fun r => r.1)

/-- The listener-parsing loop of `makeLoadBalancer`: probe
`Listeners.member.i.Protocol` until empty; for each hit build a Listener from
the sibling fields (ports via `Atoi` with the error ignored, protocols
upper-cased). -/
def parseListeners (form : Form) : Nat → Nat → Option (List Listener)
  | 0, _ => none
  | fuel + 1, i =>
    let protocol := formGet form ("Listeners.member." ++ toString i ++ ".Protocol")
    if protocol = "" then some []
    else
      let key := "Listeners.member." ++ toString i ++ "."
      let l : Listener :=
        { protocol := toUpperStr protocol
          instanceProtocol := toUpperStr (formGet form (key ++ "InstanceProtocol"))
          sslCertificateId := formGet form (key ++ "SSLCertificateId")
          loadBalancerPort := atoi (formGet form (key ++ "LoadBalancerPort"))
          instancePort := atoi (formGet form (key ++ "InstancePort")) }
      (parseListeners form fuel (i + 1)).map (fun rest => l :: rest)

/-- Source `makeHealthCheck`: defaults 10 / 5 / 2 / 30 / `TCP:80`, each overridden by
the corresponding form field when non-empty (an unparsable override yields 0,
as `Atoi`'s error is ignored). -/
def makeHealthCheck (form : Form) : HealthCheck :=
  { healthyThreshold :=
      if formGet form "HealthCheck.HealthyThreshold" = "" then 10
      else atoi (formGet form "HealthCheck.HealthyThreshold")
    interval :=
      if formGet form "HealthCheck.Interval" = "" then 30
      else atoi (formGet form "HealthCheck.Interval")
    target :=
      if formGet form "HealthCheck.Target" = "" then "TCP:80"
      else formGet form "HealthCheck.Target"
    timeout :=
      if formGet form "HealthCheck.Timeout" = "" then 5
      else atoi (formGet form "HealthCheck.Timeout")
    unhealthyThreshold :=
      if formGet form "HealthCheck.UnhealthyThreshold" = "" then 2
      else atoi (formGet form "HealthCheck.UnhealthyThreshold") }

/-- Source `makeLoadBalancer`: build a LoadBalancer from the form (listeners, zones,
subnets, security groups, health check, scheme defaulting to
`internet-facing`).  `none` only on fuel exhaustion. -/
def makeLoadBalancer (form : Form) : Option LoadBalancer := do
  let lds ← parseListeners form (form.length + 1) 1
  let azs ← getParameters form (fun i => "AvailabilityZones.member." ++ toString i)
  let subs ← getParameters form (fun i => "Subnets.member." ++ toString i)
  let sgs ← getParameters form (fun i => "SecurityGroups.member." ++ toString i)
  let scheme := formGet form "Scheme"
  some
    { availabilityZones := azs
      subnets := subs
      securityGroups := sgs
      healthCheck := makeHealthCheck form
      listeners := lds
      instances := []
      scheme := if scheme = "" then "internet-facing" else scheme
      loadBalancerName := formGet form "LoadBalancerName"
      dnsName := "" }

/-- Source `makeInstanceState`: the default pending state for an instance id. -/
def makeInstanceState (id : String) : InstanceState :=
  { description := "Instance is in pending state."
    instanceId := id
    state := "OutOfService"
    reasonCode := "Instance" }

/-- Source `validate`: return a `ValidationError` naming the first required field
whose form value is empty, short-circuiting; `none` when all are present. -/
def validate (form : Form) : List String → Option ElbError
  | [] => none
  | f :: rest =>
    if formGet form f = "" then
      some { statusCode := 400, code := "ValidationError", message := f ++ " is required." }
    else validate form rest

/-- Source `validateComposition` specialised to the single pair used by the server:
`AvailabilityZones.member.1` vs `Subnets.member.1`; exactly one must be
present. -/
def validateComposition (form : Form) : Option ElbError :=
  let a := formGet form "AvailabilityZones.member.1"
  let b := formGet form "Subnets.member.1"
  if a ≠ "" ∧ b ≠ "" then
    some { statusCode := 400, code := "ValidationError",
           message := "Only one of AvailabilityZones.member.1 or Subnets.member.1 may be specified" }
  else if a = "" ∧ b = "" then
    some { statusCode := 400, code := "ValidationError",
           message := "Either AvailabilityZones.member.1 or Subnets.member.1 must be specified" }
  else none

/-- Source `instanceExists`: `InvalidInstance` when the id is not a known instance. -/
def instanceExists (s : ServerState) (id : String) : Option ElbError :=
  if s.instances.contains id then none
  else
    some { statusCode := 400, code := "InvalidInstance",
           message := "InvalidInstance found in [" ++ id ++ "]. Invalid id: \"" ++ id ++ "\"" }

/-- Source `lbExists`: `LoadBalancerNotFound` when the name is not in the map. -/
def lbExists (s : ServerState) (name : String) : Option ElbError :=
  match alGet s.lbs name with
  | some _ => none
  | none =>
    some { statusCode := 400, code := "LoadBalancerNotFound",
           message := "There is no ACTIVE Load Balancer named \x27" ++ name ++ "\x27" }

/-- The per-call short-circuit of the `instanceExists` checks inside the
register/describe loops: the error of the first unknown id, if any. -/
def firstInvalidInstance (s : ServerState) : List String → Option ElbError
  | [] => none
  | id :: rest =>
    match instanceExists s id with
    | some e => some e
    | none => firstInvalidInstance s rest

/-- Response of CreateLoadBalancer. -/
structure CreateLoadBalancerResp where
  dnsName : String
deriving DecidableEq

/-- Response carrying only a request id (`elb.SimpleResp`). -/
structure SimpleResp where
  requestId : String := ""
deriving DecidableEq

/-- Response of RegisterInstancesWithLoadBalancer. -/
structure RegisterResp where
  instances : List Instance
deriving DecidableEq

/-- Response of ConfigureHealthCheck. -/
structure ConfigureHealthCheckResp where
  check : HealthCheck
deriving DecidableEq

/-- One `elb.LoadBalancerTag` entry of a DescribeTags response. -/
structure LoadBalancerTag where
  tags : List Tag
  loadBalancerName : String
deriving DecidableEq

/-- Response of DescribeTags. -/
structure DescribeTagsResp where
  requestId : String
  nextToken : String
  loadBalancerTags : List LoadBalancerTag
deriving DecidableEq

/-- The ordered required-field list of `createLoadBalancer`. -/
def requiredCreate : List String :=
  ["Listeners.member.1.InstancePort",
   "Listeners.member.1.InstanceProtocol",
   "Listeners.member.1.Protocol",
   "Listeners.member.1.LoadBalancerPort",
   "LoadBalancerName"]

/-- Handler `createLoadBalancer`: composition check, required-field check,
then store `makeLoadBalancer(req.Form)` under the requested name with a
synthesized DNS name. -/
def createLoadBalancer (s : ServerState) (form : Form) :
    Outcome CreateLoadBalancerResp × ServerState :=
  match validateComposition form with
  | some e => (.err e, s)
  | none =>
    match validate form requiredCreate with
    | some e => (.err e, s)
    | none =>
      let lbName := formGet form "LoadBalancerName"
      match makeLoadBalancer form with
      | none => (.fuelOut, s)
      | some lb =>
        let lb := { lb with dnsName := lbName ++ "-some-aws-stuff.us-east-1.elb.amazonaws.com" }
        (.ok { dnsName := lb.dnsName }, setLb s lbName lb)

/-- Test-control `RemoveLoadBalancer`: delete the map entry for the name. -/
def RemoveLoadBalancer (s : ServerState) (name : String) : ServerState :=
  { s with lbs := alRemove s.lbs name }

/-- Handler `deleteLoadBalancer`: validate the name field, then remove the
load balancer via `RemoveLoadBalancer` (no existence check). -/
def deleteLoadBalancer (s : ServerState) (form : Form) (reqId : String) :
    Outcome SimpleResp × ServerState :=
  match validate form ["LoadBalancerName"] with
  | some e => (.err e, s)
  | none =>
    (.ok { requestId := reqId }, RemoveLoadBalancer s (formGet form "LoadBalancerName"))

/-- Handler `registerInstancesWithLoadBalancer`: validate, check the load
balancer exists, collect the listed instance ids (each must be known,
short-circuiting), then append ONE default-pending health state built from the
post-loop value of the loop variable (the empty probe that ended the loop) and
append all the instances to the load balancer. -/
def registerInstancesWithLoadBalancer (s : ServerState) (form : Form) :
    Outcome RegisterResp × ServerState :=
  match validate form ["LoadBalancerName", "Instances.member.1.InstanceId"] with
  | some e => (.err e, s)
  | none =>
    let lbName := formGet form "LoadBalancerName"
    match lbExists s lbName with
    | some e => (.err e, s)
    | none =>
      match collectLoop
          (fun i => formGet form ("Instances.member." ++ toString i ++ ".InstanceId"))
          (form.length + 1) 1 with
      | none => (.fuelOut, s)
      | some (ids, lastProbe) =>
        match firstInvalidInstance s ids with
        | some e => (.err e, s)
        | none =>
          let instances := ids.map (fun id => Instance.mk id)
          let s1 := statesSet s lbName (statesGet s lbName ++ [makeInstanceState lastProbe])
          match alGet s1.lbs lbName with
          | none => (.crash, s1)
          | some lb =>
            (.ok { instances := instances },
             setLb s1 lbName { lb with instances := lb.instances ++ instances })

/-- Source `removeInstanceFromLB`: remove the first instance with the given id,
shifting the remainder down (order-preserving). -/
def removeInstanceFromLB : List Instance → String → List Instance
  | [], _ => []
  | x :: xs, id => if x.instanceId = id then xs else x :: removeInstanceFromLB xs id

/-- Source `removeInstanceStatesFromLoadBalancer`: find the first health state with
the given id, overwrite its slot with the LAST element and truncate
(swap-remove, order-losing); no-op when no state matches. -/
def removeInstanceStatesFromLoadBalancer (s : ServerState) (lb : String) (id : String) :
    ServerState :=
  let a := statesGet s lb
  match a.findIdx? (fun st => st.instanceId = id) with
  | none => s
  | some i =>
    match a.getLast? with
    | none => s
    | some last => statesSet s lb ((a.set i last).dropLast)

/-- The probe/check/remove loop of `deregisterInstancesFromLoadBalancer`:
returns the instance list after the removals performed so far, the error that
stopped the loop (if an unknown id was met), and the post-loop value of the
loop variable. -/
def deregLoop (s : ServerState) (form : Form) :
    List Instance → Nat → Nat → Option (List Instance × Option ElbError × String)
  | _, 0, _ => none
  | insts, fuel + 1, i =>
    let instId := formGet form ("Instances.member." ++ toString i ++ ".InstanceId")
    if instId = "" then some (insts, none, instId)
    else
      match instanceExists s instId with
      | some e => some (insts, some e, instId)
      | none => deregLoop s form (removeInstanceFromLB insts instId) fuel (i + 1)

/-- Handler `deregisterInstancesFromLoadBalancer`: validate, check the load
balancer exists, then remove each listed (and known) instance from the load
balancer's instance list; finally call
`removeInstanceStatesFromLoadBalancer` with the POST-LOOP value of the loop
variable (the empty string).  An unknown id aborts with `InvalidInstance`,
keeping the removals already performed. -/
def deregisterInstancesFromLoadBalancer (s : ServerState) (form : Form) (reqId : String) :
    Outcome SimpleResp × ServerState :=
  match validate form ["LoadBalancerName"] with
  | some e => (.err e, s)
  | none =>
    let lbName := formGet form "LoadBalancerName"
    match lbExists s lbName with
    | some e => (.err e, s)
    | none =>
      match alGet s.lbs lbName with
      | none => (.crash, s)
      | some lb =>
        match deregLoop s form lb.instances (form.length + 1) 1 with
        | none => (.fuelOut, s)
        | some (insts, res, lastProbe) =>
          let s1 := setLb s lbName { lb with instances := insts }
          match res with
          | some e => (.err e, s1)
          | none =>
            (.ok { requestId := reqId },
             removeInstanceStatesFromLoadBalancer s1 lbName lastProbe)

/-- Handler `createLoadBalancerListeners`: parse the new listeners with
`makeLoadBalancer`, reject with a generic 400 when any new listener's
load-balancer port equals an existing listener's port, else ASSIGN the parsed
list to `lb.Listeners` (the source replaces the stored list rather than
appending).  A missing load balancer is a nil-pointer dereference (`crash`). -/
def createLoadBalancerListeners (s : ServerState) (form : Form) :
    Outcome SimpleResp × ServerState :=
  let lbName := formGet form "LoadBalancerName"
  match makeLoadBalancer form with
  | none => (.fuelOut, s)
  | some lb0 =>
    let listeners := lb0.listeners
    match alGet s.lbs lbName with
    | none => (.crash, s)
    | some lb =>
      if listeners.any (fun l =>
          lb.listeners.any (fun e => e.loadBalancerPort == l.loadBalancerPort)) then
        (.err { statusCode := 400, code := "400", message := "Bad Request" }, s)
      else
        (.ok {}, setLb s lbName { lb with listeners := listeners })

/-- Handler `deleteLoadBalancerListeners`: `AccessPointNotFound` when the load
balancer is absent; collect the port list (a `ParseInt` failure panics); keep
exactly the listeners whose port is not in the list, in order. -/
def deleteLoadBalancerListeners (s : ServerState) (form : Form) :
    Outcome SimpleResp × ServerState :=
  let lbName := formGet form "LoadBalancerName"
  match alGet s.lbs lbName with
  | none =>
    (.err { statusCode := 400, code := "AccessPointNotFound",
            message := "The specified load balancer does not exist." }, s)
  | some lb =>
    match collectLoop (fun i => formGet form ("LoadBalancerPorts.member." ++ toString i))
        (form.length + 1) 1 with
    | none => (.fuelOut, s)
    | some (portStrs, _) =>
      match portStrs.mapM parseInt64 with
      | none => (.crash, s)
      | some ports =>
        let keep := lb.listeners.filter (fun l => !(ports.contains l.loadBalancerPort))
        (.ok {}, setLb s lbName { lb with listeners := keep })

/-- Character class of Go's regexp `\w` (ASCII word character). -/
def isWordChar (c : Char) : Bool := c.isAlphanum || c = '_'

/-- Recogniser for `[\d]+\/` at the head of a character list: one or more
digits immediately followed by a slash. -/
def digitsSlash : List Char → Bool
  | [] => false
  | c :: rest =>
    c.isDigit &&
      (match rest with
       | '/' :: _ => true
       | _ => digitsSlash rest)

/-- Head recogniser for the regex `TCP:[\d]+`: the list starts with `TCP:`
followed by a digit. -/
def tcpAt : List Char → Bool
  | 'T' :: 'C' :: 'P' :: ':' :: c :: _ => c.isDigit
  | _ => false

/-- Head recogniser equivalent to the regex `[\w]+:[\d]+\/+` matching at some
offset inside the remaining list: a word character, a colon, digits, a slash
(taking the last word character of the `[\w]+` run). -/
def protoAt : List Char → Bool
  | c :: ':' :: rest => isWordChar c && digitsSlash rest
  | _ => false

/-- Unanchored regex search (Go `FindStringSubmatch ≠ nil`): some suffix of
the list satisfies the head recogniser. -/
def containsMatch (p : List Char → Bool) : List Char → Bool
  | [] => p []
  | c :: rest => p (c :: rest) || containsMatch p rest

/-- Whether `regexp.MustCompile("TCP:[\\d]+").FindStringSubmatch(s)` is
non-nil. -/
def tcpTargetMatch (s : String) : Bool := containsMatch tcpAt s.toList

/-- Whether `regexp.MustCompile("[\\w]+:[\\d]+\\/+").FindStringSubmatch(s)` is
non-nil. -/
def httpTargetMatch (s : String) : Bool := containsMatch protoAt s.toList

/-- The required-field list of `configureHealthCheck`. -/
def requiredHC : List String :=
  ["LoadBalancerName",
   "HealthCheck.HealthyThreshold",
   "HealthCheck.Interval",
   "HealthCheck.Target",
   "HealthCheck.Timeout",
   "HealthCheck.UnhealthyThreshold"]

/-- The health check built by `configureHealthCheck` from the request fields:
thresholds and times via `Atoi` with the error ignored, target verbatim. -/
def requestHealthCheck (form : Form) : HealthCheck :=
  { healthyThreshold := atoi (formGet form "HealthCheck.HealthyThreshold")
    interval := atoi (formGet form "HealthCheck.Interval")
    target := formGet form "HealthCheck.Target"
    timeout := atoi (formGet form "HealthCheck.Timeout")
    unhealthyThreshold := atoi (formGet form "HealthCheck.UnhealthyThreshold") }

/-- The `ValidationError` returned for a malformed health-check target. -/
def targetValidationError : ElbError :=
  { statusCode := 400, code := "ValidationError",
    message := "HealthCheck HTTP Target must specify a port followed by a path that begins with a slash. e.g. HTTP:80/ping/this/path" }

/-- Handler `configureHealthCheck`: validate the required fields; reject the
target unless one of the two regexes matches; then store the new health check
on the load balancer (a missing load balancer is a nil-pointer dereference). -/
def configureHealthCheck (s : ServerState) (form : Form) :
    Outcome ConfigureHealthCheckResp × ServerState :=
  match validate form requiredHC with
  | some e => (.err e, s)
  | none =>
    let target := formGet form "HealthCheck.Target"
    if !tcpTargetMatch target && !httpTargetMatch target then
      (.err targetValidationError, s)
    else
      let hc : HealthCheck := requestHealthCheck form
      let lbName := formGet form "LoadBalancerName"
      match alGet s.lbs lbName with
      | none => (.crash, s)
      | some lb =>
        (.ok { check := hc }, setLb s lbName { lb with healthCheck := hc })

/-- Handler `describeInstanceHealth`: check the load balancer exists; the
response starts with the stored health states, then for every instance id
listed in the request (each must be known) a freshly synthesized
default-pending state is appended.  The state is unchanged. -/
def describeInstanceHealth (s : ServerState) (form : Form) :
    Outcome (List InstanceState) × ServerState :=
  match lbExists s (formGet form "LoadBalancerName") with
  | some e => (.err e, s)
  | none =>
    let base := statesGet s (formGet form "LoadBalancerName")
    match collectLoop
        (fun i => formGet form ("Instances.member." ++ toString i ++ ".InstanceId"))
        (form.length + 1) 1 with
    | none => (.fuelOut, s)
    | some (ids, _) =>
      match firstInvalidInstance s ids with
      | some e => (.err e, s)
      | none =>
        (.ok (base ++ ids.map (fun id => makeInstanceState id)), s)

/-- Handler `describeTags`: return the tag list stored under
`LoadBalancerNames.member.1`, wrapped in a singleton collection. -/
def describeTags (s : ServerState) (form : Form) : Outcome DescribeTagsResp × ServerState :=
  let lbName := formGet form "LoadBalancerNames.member.1"
  (.ok { requestId := "fake-req-id", nextToken := "who knows!",
         loadBalancerTags := [{ tags := tagsGet s lbName, loadBalancerName := lbName }] }, s)

/-- Test-control `NewLoadBalancer`: store a fresh load balancer with only the
name and a synthesized DNS name set (all other fields are zero values). -/
def NewLoadBalancer (s : ServerState) (name : String) : ServerState :=
  let lb : LoadBalancer :=
    { loadBalancerName := name
      dnsName := name ++ "-some-aws-stuff.sa-east-1.amazonaws.com" }
  setLb s name lb

/-- True when two listeners of the list share a load-balancer port. -/
def dupPorts : List Listener → Bool
  | [] => false
  | l :: rest => rest.any (fun x => x.loadBalancerPort == l.loadBalancerPort) || dupPorts rest

/-- Whether some newly parsed listener collides with an existing listener on
the load-balancer port — the rejection condition of
`createLoadBalancerListeners`. -/
def portCollision (newLs oldLs : List Listener) : Bool :=
  newLs.any (fun l => oldLs.any (fun e => e.loadBalancerPort == l.loadBalancerPort))

/-- Fixture: an HTTP listener 80 to 8080. -/
def fxL80 : Listener := ⟨"HTTP", "HTTP", "", 80, 8080⟩

/-- Fixture: an HTTP listener 443 to 8443. -/
def fxL443 : Listener := ⟨"HTTP", "HTTP", "", 443, 8443⟩

/-- Fixture: a TCP listener 22 to 22. -/
def fxL22 : Listener := ⟨"TCP", "TCP", "", 22, 22⟩

/-- Fixture: a load balancer named `lb` with the single port-80 listener. -/
def fxLb80 : LoadBalancer := { loadBalancerName := "lb", listeners := [fxL80] }

/-- Fixture: a server holding only `fxLb80`. -/
def fxS1 : ServerState := { lbs := [("lb", fxLb80)] }

/-- Fixture: a CreateLoadBalancerListeners request adding a port-443 listener
to `lb`. -/
def fxForm1 : Form :=
  [("LoadBalancerName", "lb"),
   ("Listeners.member.1.Protocol", "http"),
   ("Listeners.member.1.InstanceProtocol", "http"),
   ("Listeners.member.1.LoadBalancerPort", "443"),
   ("Listeners.member.1.InstancePort", "8443")]

/-- Fixture: a CreateLoadBalancerListeners request adding a listener whose
port 80 collides with the existing listener of `lb`. -/
def fxForm1b : Form :=
  [("LoadBalancerName", "lb"),
   ("Listeners.member.1.Protocol", "http"),
   ("Listeners.member.1.InstanceProtocol", "http"),
   ("Listeners.member.1.LoadBalancerPort", "80"),
   ("Listeners.member.1.InstancePort", "8443")]

/-- Fixture: the load balancer `makeLoadBalancer` parses out of `fxForm1`. -/
def fxLb0 : LoadBalancer :=
  { availabilityZones := [], subnets := [], securityGroups := []
    healthCheck := ⟨10, 30, "TCP:80", 5, 2⟩
    listeners := [⟨"HTTP", "HTTP", "", 443, 8443⟩]
    instances := [], scheme := "internet-facing"
    loadBalancerName := "lb", dnsName := "" }

/-- Fixture: the load balancer `makeLoadBalancer` parses out of `fxForm1b`. -/
def fxLb0b : LoadBalancer :=
  { availabilityZones := [], subnets := [], securityGroups := []
    healthCheck := ⟨10, 30, "TCP:80", 5, 2⟩
    listeners := [⟨"HTTP", "HTTP", "", 80, 8443⟩]
    instances := [], scheme := "internet-facing"
    loadBalancerName := "lb", dnsName := "" }

/-- Fixture: a server with load balancer `lb` carrying registered instance
`i-1` and its health state, `i-1` being a known instance. -/
def fxS2 : ServerState :=
  { lbs := [("lb", { loadBalancerName := "lb", instances := [⟨"i-1"⟩] })]
    instances := ["i-1"]
    instanceStates := [("lb", [makeInstanceState "i-1"])] }

/-- Fixture: a DeregisterInstancesFromLoadBalancer request for `i-1`. -/
def fxForm2 : Form := [("LoadBalancerName", "lb"), ("Instances.member.1.InstanceId", "i-1")]

/-- Fixture: a CreateLoadBalancer request whose two listeners both use
load-balancer port 80. -/
def fxForm3 : Form :=
  [("Subnets.member.1", "subnet-1"), ("LoadBalancerName", "web"),
   ("Listeners.member.1.InstancePort", "8080"),
   ("Listeners.member.1.InstanceProtocol", "http"),
   ("Listeners.member.1.Protocol", "http"),
   ("Listeners.member.1.LoadBalancerPort", "80"),
   ("Listeners.member.2.InstancePort", "8081"),
   ("Listeners.member.2.InstanceProtocol", "http"),
   ("Listeners.member.2.Protocol", "http"),
   ("Listeners.member.2.LoadBalancerPort", "80")]

/-- Fixture: an empty load balancer named `lb`. -/
def fxLbEmpty : LoadBalancer := { loadBalancerName := "lb" }

/-- Fixture: a server with the empty load balancer `lb` and two known
instances. -/
def fxS4 : ServerState := { lbs := [("lb", fxLbEmpty)], instances := ["i-1", "i-2"] }

/-- Fixture: a RegisterInstancesWithLoadBalancer request listing `i-1` and
`i-2`. -/
def fxForm4 : Form :=
  [("LoadBalancerName", "lb"),
   ("Instances.member.1.InstanceId", "i-1"),
   ("Instances.member.2.InstanceId", "i-2")]

/-- Fixture: a CreateLoadBalancer request carrying only a subnet — every
required field is missing. -/
def fxForm5 : Form := [("Subnets.member.1", "subnet-1")]

/-- Fixture: a server with only the empty load balancer `lb`. -/
def fxS6 : ServerState := { lbs := [("lb", fxLbEmpty)] }

/-- Fixture: a ConfigureHealthCheck request with all required fields and the
given target. -/
def fxForm6 (t : String) : Form :=
  [("LoadBalancerName", "lb"),
   ("HealthCheck.HealthyThreshold", "10"),
   ("HealthCheck.Interval", "30"),
   ("HealthCheck.Target", t),
   ("HealthCheck.Timeout", "5"),
   ("HealthCheck.UnhealthyThreshold", "2")]

/-- Fixture: a load balancer with listeners on ports 80, 443 and 22. -/
def fxLb8 : LoadBalancer := { loadBalancerName := "lb", listeners := [fxL80, fxL443, fxL22] }

/-- Fixture: a server holding only `fxLb8`. -/
def fxS8 : ServerState := { lbs := [("lb", fxLb8)] }

/-- Fixture: a DeleteLoadBalancerListeners request for ports 80 and 22. -/
def fxForm8 : Form :=
  [("LoadBalancerName", "lb"),
   ("LoadBalancerPorts.member.1", "80"),
   ("LoadBalancerPorts.member.2", "22")]

/-- Fixture: a server with load balancer `lb`, an old health state and an old
tag stored under its name. -/
def fxS10 : ServerState :=
  { lbs := [("lb", fxLbEmpty)]
    instanceStates := [("lb", [makeInstanceState "i-9"])]
    lbTags := [("lb", [⟨"team", "cloudops"⟩])] }

/-- Fixture: a request naming load balancer `lb`. -/
def fxFormName : Form := [("LoadBalancerName", "lb")]

/-- Fixture: a DescribeTags request naming `lb`. -/
def fxFormTags : Form := [("LoadBalancerNames.member.1", "lb")]

end ElbTest

namespace R53Test

/-- A `route53.ResourceRecordSet`: only the name takes part in the change
logic; the remaining fields are abstracted into an opaque payload. -/
structure RRecord where
  name : String
  payload : String
deriving DecidableEq

/-- One change of a ChangeResourceRecordSets batch. -/
structure Change where
  action : String
  record : RRecord
deriving DecidableEq

/-- The in-place shift performed by
`append(srv.records[:i], srv.records[i+1:]...)` on a slice of length `m` over
a backing array `arr`: elements `i+1 … m-1` move down one slot; the slot
`m-1` and everything beyond keep their old (now stale) values. -/
def shiftDelete (arr : List RRecord) (i m : Nat) : List RRecord :=
  arr.take i ++ (arr.drop (i + 1)).take (m - 1 - i) ++ arr.drop (m - 1)

/-- The DELETE loop of `changeResourceRecordSets`: `range` iterates `i` over
the ORIGINAL length `n` and reads the shared backing array, while each
matching element shortens the live slice (length `m`) in place.  When a stale
element at `i ≥ m` matches, the source evaluates `srv.records[i+1:]` with
`i+1 > m`, an out-of-range slice expression — a panic, modelled as `none`.
The first argument of the recursion is the remaining iteration count
`n - i`. -/
def delLoop (name : String) : Nat → Nat → List RRecord → Nat → Option (List RRecord × Nat)
  | 0, _, arr, m => some (arr, m)
  | r + 1, i, arr, m =>
    let cur := arr.getD i ⟨"", ""⟩
    if cur.name = name then
      if m < i + 1 then none
      else delLoop name r (i + 1) (shiftDelete arr i m) (m - 1)
    else delLoop name r (i + 1) arr m

/-- One DELETE change applied to the record list: run the loop with the
original length as iteration bound, then keep the first `m` elements. -/
def deleteRun (name : String) (records : List RRecord) : Option (List RRecord) :=
  (delLoop name records.length 0 records records.length).map (fun p => p.1.take p.2)

/-- One change of the batch: CREATE appends, DELETE runs the deletion loop,
any other action is ignored (the `switch` has no default case). -/
def applyChange (records : List RRecord) (c : Change) : Option (List RRecord) :=
  if c.action = "CREATE" then some (records ++ [c.record])
  else if c.action = "DELETE" then deleteRun c.record.name records
  else some records

/-- Handler `changeResourceRecordSets` on a decoded change batch: apply the
changes in order; `none` when a DELETE panics. -/
def changeResourceRecordSets (records : List RRecord) : List Change → Option (List RRecord)
  | [] => some records
  | c :: cs =>
    match applyChange records c with
    | none => none
    | some r => changeResourceRecordSets r cs

/-- Fixture: a first record named `x.example.com`. -/
def fxRx1 : RRecord := ⟨"x.example.com", "1.1.1.1"⟩

/-- Fixture: a second record with the same name `x.example.com`. -/
def fxRx2 : RRecord := ⟨"x.example.com", "2.2.2.2"⟩

/-- Fixture: a record named `b.example.com`. -/
def fxRb : RRecord := ⟨"b.example.com", "3.3.3.3"⟩

end R53Test

namespace ElbTest

/-- Looking up the key just written by `alSet` yields the written value. -/
theorem alGet_alSet_self {α : Type} (m : List (String × α)) (k : String) (v : α) :
    alGet (alSet m k v) k = some v := by
  induction m with
  | nil => simp [alGet, alSet, List.find?]
  | cons p rest ih =>
    obtain ⟨k', v'⟩ := p
    by_cases h : k' = k
    · simp [alSet, h, alGet, List.find?]
    · simp only [alSet, if_neg h]
      simpa [alGet, List.find?, h] using ih

/-- Looking up a removed key yields `none`. -/
theorem alGet_alRemove_self {α : Type} (m : List (String × α)) (k : String) :
    alGet (alRemove m k) k = none := by
  induction m with
  | nil => simp [alGet, alRemove, List.find?]
  | cons p rest ih =>
    obtain ⟨k', v'⟩ := p
    by_cases h : k' = k
    · simpa [alRemove, h] using ih
    · simp only [alRemove, if_neg h]
      simpa [alGet, List.find?, h] using ih

/-- The probe loop exits exactly when a probe returns the empty string, so the
post-loop value of the loop variable is always empty. -/
theorem collectLoop_last (get1 : Nat → String) :
    ∀ fuel i l last, collectLoop get1 fuel i = some (l, last) → last = "" := by
  intro fuel
  induction fuel with
  | zero => intro i l last h; simp [collectLoop] at h
  | succ n ih =>
    intro i l last h
    simp only [collectLoop] at h
    split at h
    · next hg =>
      simp only [Option.some.injEq, Prod.mk.injEq] at h
      exact h.2 ▸ hg
    · next hg =>
      cases hco : collectLoop get1 n (i + 1) with
      | none => rw [hco] at h; simp at h
      | some r =>
        rw [hco] at h
        simp only [Option.map_some', Option.some.injEq, Prod.mk.injEq] at h
        exact h.2 ▸ ih (i + 1) r.1 r.2 (by rw [hco])

/-- The function `validate` returns the error of the first required field whose form value
is empty, and `none` when every field is present. -/
theorem validate_eq_find (form : Form) (l : List String) :
    validate form l =
      (l.find? (fun f => formGet form f == "")).map
        (fun f => ({ statusCode := 400, code := "ValidationError",
                     message := f ++ " is required." } : ElbError)) := by
  induction l with
  | nil => simp [validate, List.find?]
  | cons f rest ih =>
    by_cases h : formGet form f = ""
    · simp [validate, List.find?, h]
    · have h2 : (formGet form f == "") = false := by simp [h]
      simp [validate, List.find?, h, h2, ih]

/-- Claim C1: on a load balancer that already has a port-80 listener, a
CreateLoadBalancerListeners request adding a non-colliding port-443 listener
succeeds, but the stored listener list afterwards holds ONLY the new
listener — the source assigns the parsed list to `lb.Listeners` instead of
appending, so the previously stored port-80 listener is lost, contrary to the
claim (and to the collision check, which is only meaningful for an append). -/
theorem c1_createListeners_replaces_not_appends :
    (createLoadBalancerListeners fxS1 fxForm1).1 = .ok ⟨""⟩ ∧
    (alGet (createLoadBalancerListeners fxS1 fxForm1).2.lbs "lb").map (fun lb => lb.listeners)
      = some [⟨"HTTP", "HTTP", "", 443, 8443⟩] := by
  refine ⟨rfl, by decide⟩

/-- Claim C2: deregistering the (known) instance `i-1` from load balancer
`lb` removes it from the registered-instance list but LEAVES its health state
in place: the source calls `removeInstanceStatesFromLoadBalancer` with the
post-loop (empty) instance id, so no listed id's health state is ever
removed, contrary to the claim. -/
theorem c2_deregister_keeps_health_state :
    (deregisterInstancesFromLoadBalancer fxS2 fxForm2 "req").1 = .ok ⟨"req"⟩ ∧
    (alGet (deregisterInstancesFromLoadBalancer fxS2 fxForm2 "req").2.lbs "lb").map
      (fun lb => lb.instances) = some [] ∧
    statesGet (deregisterInstancesFromLoadBalancer fxS2 fxForm2 "req").2 "lb"
      = [makeInstanceState "i-1"] := by
  refine ⟨rfl, rfl, rfl⟩

/-- Claim C3, counterexample: a single CreateLoadBalancer request whose two
listeners both use load-balancer port 80 is NOT rejected, and the resulting
reachable state stores a load balancer with two listeners sharing port 80 —
the claimed invariant fails. -/
theorem c3_invariant_counterexample :
    (createLoadBalancer initServer fxForm3).1
      = .ok ⟨"web-some-aws-stuff.us-east-1.elb.amazonaws.com"⟩ ∧
    (alGet (createLoadBalancer initServer fxForm3).2.lbs "web").map
      (fun lb => dupPorts lb.listeners) = some true := by
  refine ⟨rfl, rfl⟩

/-- Claim C3 (amended): `createLoadBalancerListeners` rejects with a generic
400 error, leaving the state unchanged, whenever some newly parsed listener's
load-balancer port equals the port of a listener already stored on that load
balancer; the stronger reachable-state invariant fails because duplicate
ports inside a single create request are never checked. -/
theorem c3_collision_rejected (s : ServerState) (form : Form) (n : String)
    (lb0 lb : LoadBalancer)
    (hm : makeLoadBalancer form = some lb0)
    (hn : formGet form "LoadBalancerName" = n)
    (hlb : alGet s.lbs n = some lb)
    (hdup : portCollision lb0.listeners lb.listeners = true) :
    createLoadBalancerListeners s form =
      (.err { statusCode := 400, code := "400", message := "Bad Request" }, s) := by
  simp only [portCollision] at hdup
  simp [createLoadBalancerListeners, hn, hm, hlb, hdup]

/-- Witness for `c3_collision_rejected` at a concrete colliding request. -/
theorem c3_collision_rejected_witness :
    createLoadBalancerListeners fxS1 fxForm1b =
      (.err { statusCode := 400, code := "400", message := "Bad Request" }, fxS1) :=
  c3_collision_rejected fxS1 fxForm1b "lb" fxLb0b fxLb80 (by decide) rfl rfl (by decide)

/-- Claim C4, counterexample: registering the known instances `i-1` and `i-2`
with load balancer `lb` appends exactly one health state, and its instance id
is the empty string (the probe value that terminated the loop), not the last
listed id `i-2`. -/
theorem c4_register_counterexample :
    (registerInstancesWithLoadBalancer fxS4 fxForm4).1 = .ok ⟨[⟨"i-1"⟩, ⟨"i-2"⟩]⟩ ∧
    statesGet (registerInstancesWithLoadBalancer fxS4 fxForm4).2 "lb"
      = [makeInstanceState ""] ∧
    (makeInstanceState "").instanceId ≠ "i-2" := by
  refine ⟨rfl, rfl, by decide⟩

/-- Claim C4 (amended): a successful RegisterInstancesWithLoadBalancer call
appends all listed instances to the load balancer's registered-instance list
and appends exactly one default-pending (OutOfService/Instance) health state
per call, whose instance id is the EMPTY string (the loop variable's
post-loop value), not the last listed instance id. -/
theorem c4_register_amended (s : ServerState) (form : Form) (n : String)
    (lb : LoadBalancer) (ids : List String) (lastProbe : String)
    (hv : validate form ["LoadBalancerName", "Instances.member.1.InstanceId"] = none)
    (hn : formGet form "LoadBalancerName" = n)
    (hlb : alGet s.lbs n = some lb)
    (hc : collectLoop
        (fun i => formGet form ("Instances.member." ++ toString i ++ ".InstanceId"))
        (form.length + 1) 1 = some (ids, lastProbe))
    (hvalid : firstInvalidInstance s ids = none) :
    (registerInstancesWithLoadBalancer s form).1
      = .ok ⟨ids.map (fun id => Instance.mk id)⟩ ∧
    statesGet (registerInstancesWithLoadBalancer s form).2 n
      = statesGet s n ++ [makeInstanceState ""] ∧
    (alGet (registerInstancesWithLoadBalancer s form).2.lbs n).map (fun l => l.instances)
      = some (lb.instances ++ ids.map (fun id => Instance.mk id)) := by
  have hlast : lastProbe = "" := collectLoop_last _ _ _ _ _ hc
  subst hlast
  have hex : lbExists s n = none := by simp [lbExists, hlb]
  simp only [registerInstancesWithLoadBalancer, hv, hn, hex, hc, hvalid]
  simp [alGet_alSet_self, hlb, statesGet, statesSet, setLb]

/-- Witness for `c4_register_amended` at the concrete two-instance request. -/
theorem c4_register_amended_witness :
    (registerInstancesWithLoadBalancer fxS4 fxForm4).1 = .ok ⟨[⟨"i-1"⟩, ⟨"i-2"⟩]⟩ ∧
    statesGet (registerInstancesWithLoadBalancer fxS4 fxForm4).2 "lb"
      = statesGet fxS4 "lb" ++ [makeInstanceState ""] ∧
    (alGet (registerInstancesWithLoadBalancer fxS4 fxForm4).2.lbs "lb").map
      (fun l => l.instances) = some (fxLbEmpty.instances ++ [⟨"i-1"⟩, ⟨"i-2"⟩]) :=
  c4_register_amended fxS4 fxForm4 "lb" fxLbEmpty ["i-1", "i-2"] ""
    (by decide) rfl (by decide) rfl rfl

/-- Claim C5, counterexample: a CreateLoadBalancer request with ALL fields
empty returns the availability-zone/subnet composition ValidationError, whose
message does not name the first missing required field
(`Listeners.member.1.InstancePort`) — the composition check runs before the
required-field check, so the claim as stated fails. -/
theorem c5_validation_counterexample :
    (createLoadBalancer initServer []).1 =
      .err { statusCode := 400, code := "ValidationError",
             message := "Either AvailabilityZones.member.1 or Subnets.member.1 must be specified" } ∧
    ("Either AvailabilityZones.member.1 or Subnets.member.1 must be specified" : String)
      ≠ "Listeners.member.1.InstancePort is required." := by
  refine ⟨rfl, by decide⟩

/-- Claim C5 (amended): provided the request satisfies the
availability-zone/subnet composition rule (exactly one of the two index-1
fields present), a CreateLoadBalancer request with some required field empty
returns a ValidationError naming the FIRST missing field in the
required-field list's order (short-circuit), and the store is unchanged. -/
theorem c5_validation_amended (s : ServerState) (form : Form) (F : String)
    (hcomp : (formGet form "AvailabilityZones.member.1" = "")
      ↔ ¬ (formGet form "Subnets.member.1" = ""))
    (hF : requiredCreate.find? (fun f => formGet form f == "") = some F) :
    createLoadBalancer s form =
      (.err { statusCode := 400, code := "ValidationError", message := F ++ " is required." },
       s) := by
  have hvc : validateComposition form = none := by
    by_cases ha : formGet form "AvailabilityZones.member.1" = ""
    · have hb := hcomp.mp ha
      simp [validateComposition, ha, hb]
    · have hb : formGet form "Subnets.member.1" = "" := by
        by_contra hb
        exact ha (hcomp.mpr hb)
      simp [validateComposition, ha, hb]
  simp [createLoadBalancer, hvc, validate_eq_find, hF]

/-- Witness for `c5_validation_amended`: a request carrying only a subnet is
rejected naming `Listeners.member.1.InstancePort`. -/
theorem c5_validation_amended_witness :
    createLoadBalancer initServer fxForm5 =
      (.err { statusCode := 400, code := "ValidationError",
              message := "Listeners.member.1.InstancePort is required." },
       initServer) :=
  c5_validation_amended initServer fxForm5 "Listeners.member.1.InstancePort"
    (by decide) rfl

/-- Claim C6: for a ConfigureHealthCheck request on an existing load balancer
with all required fields present, the target is accepted exactly when one of
the two source regexes matches it (`TCP:` followed by a digit somewhere, or
word-char colon digits slash somewhere); an accepted target is stored
verbatim in the replaced health check, a rejected request leaves the state
unchanged; concretely `HTTP80` is rejected while `TCP:80` and `HTTP:80/ping`
match. -/
theorem c6_configure_health_check (s : ServerState) (form : Form) (n : String)
    (lb : LoadBalancer) (t : String)
    (hn : formGet form "LoadBalancerName" = n)
    (ht : formGet form "HealthCheck.Target" = t)
    (hreq : validate form requiredHC = none)
    (hlb : alGet s.lbs n = some lb) :
    (((tcpTargetMatch t || httpTargetMatch t) = true →
        configureHealthCheck s form =
          (.ok ⟨requestHealthCheck form⟩,
           setLb s n { lb with healthCheck := requestHealthCheck form })
        ∧ (requestHealthCheck form).target = t) ∧
     ((tcpTargetMatch t || httpTargetMatch t) = false →
        configureHealthCheck s form = (.err targetValidationError, s))) ∧
    tcpTargetMatch "TCP:80" = true ∧
    httpTargetMatch "HTTP:80/ping" = true ∧
    (tcpTargetMatch "HTTP80" || httpTargetMatch "HTTP80") = false := by
  refine ⟨⟨?_, ?_⟩, by decide, by decide, by decide⟩
  · intro hmatch
    have hcond : (!tcpTargetMatch t && !httpTargetMatch t) = false := by
      rw [← Bool.not_or, hmatch]; rfl
    constructor
    · simp [configureHealthCheck, hreq, ht, hcond, hn, hlb]
    · simp [requestHealthCheck, ht]
  · intro hmatch
    have hcond : (!tcpTargetMatch t && !httpTargetMatch t) = true := by
      rw [← Bool.not_or, hmatch]; rfl
    simp [configureHealthCheck, hreq, ht, hcond]

/-- Witness for `c6_configure_health_check` at the accepted target `TCP:80`
on the concrete server `fxS6`. -/
theorem c6_configure_health_check_witness :
    configureHealthCheck fxS6 (fxForm6 "TCP:80") =
      (.ok ⟨requestHealthCheck (fxForm6 "TCP:80")⟩,
       setLb fxS6 "lb" { fxLbEmpty with healthCheck := requestHealthCheck (fxForm6 "TCP:80") }) ∧
    (requestHealthCheck (fxForm6 "TCP:80")).target = "TCP:80" :=
  ((c6_configure_health_check fxS6 (fxForm6 "TCP:80") "lb" fxLbEmpty "TCP:80"
      rfl rfl (by decide) (by decide)).1.1) (by decide)

/-- Claim C8: DeleteLoadBalancerListeners on an existing load balancer keeps
exactly the listeners whose load-balancer port is not in the supplied port
list, in their original relative order (a filter of the stored list), and
stores nothing else. -/
theorem c8_delete_listeners_filter (s : ServerState) (form : Form) (n : String)
    (lb : LoadBalancer) (portStrs : List String) (lastP : String) (ports : List Int)
    (hn : formGet form "LoadBalancerName" = n)
    (hlb : alGet s.lbs n = some lb)
    (hcollect : collectLoop
        (fun i => formGet form ("LoadBalancerPorts.member." ++ toString i))
        (form.length + 1) 1 = some (portStrs, lastP))
    (hports : portStrs.mapM parseInt64 = some ports) :
    deleteLoadBalancerListeners s form =
      (.ok ⟨""⟩,
       setLb s n
         { lb with listeners :=
             lb.listeners.filter (fun l => !(ports.contains l.loadBalancerPort)) }) := by
  simp only [deleteLoadBalancerListeners, hn, hlb, hcollect, hports]

/-- Witness for `c8_delete_listeners_filter`: deleting ports 80 and 22 from
the three-listener balancer keeps exactly the port-443 listener. -/
theorem c8_delete_listeners_filter_witness :
    deleteLoadBalancerListeners fxS8 fxForm8 =
      (.ok ⟨""⟩,
       setLb fxS8 "lb"
         { fxLb8 with listeners :=
             fxLb8.listeners.filter (fun l => !([(80 : Int), 22].contains l.loadBalancerPort)) }) :=
  c8_delete_listeners_filter fxS8 fxForm8 "lb" fxLb8 ["80", "22"] "" [80, 22]
    rfl (by decide) (by decide) (by decide)

/-- Claim C9: a CreateLoadBalancerListeners request, and a ConfigureHealthCheck
request that passes field and target validation, naming a load balancer
absent from the store, both dereference the nil pointer returned by the map
lookup: the request handling crashes instead of returning a structured
not-found error. -/
theorem c9_missing_lb_crashes (s : ServerState) (form1 form2 : Form)
    (n1 n2 : String) (lb0 : LoadBalancer)
    (h1 : formGet form1 "LoadBalancerName" = n1)
    (hm : makeLoadBalancer form1 = some lb0)
    (ha1 : alGet s.lbs n1 = none)
    (h2 : formGet form2 "LoadBalancerName" = n2)
    (hreq : validate form2 requiredHC = none)
    (hmatch : (tcpTargetMatch (formGet form2 "HealthCheck.Target")
        || httpTargetMatch (formGet form2 "HealthCheck.Target")) = true)
    (ha2 : alGet s.lbs n2 = none) :
    createLoadBalancerListeners s form1 = (.crash, s) ∧
    configureHealthCheck s form2 = (.crash, s) := by
  constructor
  · simp [createLoadBalancerListeners, h1, hm, ha1]
  · have hcond : (!tcpTargetMatch (formGet form2 "HealthCheck.Target")
        && !httpTargetMatch (formGet form2 "HealthCheck.Target")) = false := by
      rw [← Bool.not_or, hmatch]; rfl
    simp [configureHealthCheck, hreq, hcond, h2, ha2]

/-- Witness for `c9_missing_lb_crashes` on the empty server. -/
theorem c9_missing_lb_crashes_witness :
    createLoadBalancerListeners initServer fxForm1 = (.crash, initServer) ∧
    configureHealthCheck initServer (fxForm6 "TCP:80") = (.crash, initServer) :=
  c9_missing_lb_crashes initServer fxForm1 (fxForm6 "TCP:80") "lb" "lb" fxLb0
    rfl (by decide) rfl rfl (by decide) (by decide) rfl

/-- Claim C10: DeleteLoadBalancer (through the test-control
`RemoveLoadBalancer`) removes only the map entry of the named load balancer;
the instance-health-state list and the tag list stored under the name are
untouched, so after re-creating a load balancer of the same name,
DescribeInstanceHealth returns the old health states and DescribeTags the old
tags. -/
theorem c10_delete_lb_frame (s : ServerState) (form formDIH formDT : Form)
    (n : String) (lb : LoadBalancer) (reqId : String)
    (hn : formGet form "LoadBalancerName" = n)
    (hne : ¬ n = "")
    (_hlb : alGet s.lbs n = some lb)
    (hdih1 : formGet formDIH "LoadBalancerName" = n)
    (hdih2 : formGet formDIH "Instances.member.1.InstanceId" = "")
    (hdt : formGet formDT "LoadBalancerNames.member.1" = n) :
    deleteLoadBalancer s form reqId = (.ok ⟨reqId⟩, RemoveLoadBalancer s n) ∧
    (RemoveLoadBalancer s n).lbs = alRemove s.lbs n ∧
    (RemoveLoadBalancer s n).instanceStates = s.instanceStates ∧
    (RemoveLoadBalancer s n).lbTags = s.lbTags ∧
    alGet (RemoveLoadBalancer s n).lbs n = none ∧
    (describeInstanceHealth (NewLoadBalancer (RemoveLoadBalancer s n) n) formDIH).1
      = .ok (statesGet s n) ∧
    (describeTags (NewLoadBalancer (RemoveLoadBalancer s n) n) formDT).1
      = .ok ⟨"fake-req-id", "who knows!", [⟨tagsGet s n, n⟩]⟩ := by
  refine ⟨?_, rfl, rfl, rfl, ?_, ?_, ?_⟩
  · simp [deleteLoadBalancer, validate, hn, hne]
  · exact alGet_alRemove_self s.lbs n
  · have hex : lbExists (NewLoadBalancer (RemoveLoadBalancer s n) n) n = none := by
      simp [lbExists, NewLoadBalancer, setLb, alGet_alSet_self]
    have hkey : ("Instances.member." ++ toString 1 ++ ".InstanceId")
        = "Instances.member.1.InstanceId" := by decide
    have hc : collectLoop
        (fun i => formGet formDIH ("Instances.member." ++ toString i ++ ".InstanceId"))
        (formDIH.length + 1) 1 = some ([], "") := by
      simp only [collectLoop, hkey, hdih2]
      simp
    simp only [describeInstanceHealth, hdih1, hex, hc]
    simp [firstInvalidInstance, statesGet, NewLoadBalancer, setLb, RemoveLoadBalancer]
  · simp [describeTags, hdt, tagsGet, NewLoadBalancer, setLb, RemoveLoadBalancer]

/-- Witness for `c10_delete_lb_frame` on the concrete server `fxS10`. -/
theorem c10_delete_lb_frame_witness :
    deleteLoadBalancer fxS10 fxFormName "r" = (.ok ⟨"r"⟩, RemoveLoadBalancer fxS10 "lb") ∧
    (RemoveLoadBalancer fxS10 "lb").lbs = alRemove fxS10.lbs "lb" ∧
    (RemoveLoadBalancer fxS10 "lb").instanceStates = fxS10.instanceStates ∧
    (RemoveLoadBalancer fxS10 "lb").lbTags = fxS10.lbTags ∧
    alGet (RemoveLoadBalancer fxS10 "lb").lbs "lb" = none ∧
    (describeInstanceHealth (NewLoadBalancer (RemoveLoadBalancer fxS10 "lb") "lb") fxFormName).1
      = .ok (statesGet fxS10 "lb") ∧
    (describeTags (NewLoadBalancer (RemoveLoadBalancer fxS10 "lb") "lb") fxFormTags).1
      = .ok ⟨"fake-req-id", "who knows!", [⟨tagsGet fxS10 "lb", "lb"⟩]⟩ :=
  c10_delete_lb_frame fxS10 fxFormName fxFormName fxFormTags "lb" fxLbEmpty "r"
    rfl (by decide) (by decide) rfl rfl rfl

end ElbTest

namespace R53Test

/-- Claim C7: one DELETE change for `x.example.com` applied to the record
list `[x, x, b]` (two adjacent records of that name) leaves the SECOND
`x.example.com` record in the list: deleting while ranging shifts the next
element into the deleted slot and the loop skips it, so the claimed
remove-every-matching-record semantics fails when several records share the
name. -/
theorem c7_delete_skips_adjacent_duplicate :
    changeResourceRecordSets [fxRx1, fxRx2, fxRb] [⟨"DELETE", ⟨"x.example.com", ""⟩⟩]
      = some [fxRx2, fxRb] ∧
    fxRx2.name = "x.example.com" := by
  refine ⟨rfl, rfl⟩

end R53Test
